import Mathlib

/-!
Shallow embedding of the snake game core (game.py, algorithm.py).

Conventions of the embedding:
* a Python `(int, int)` grid coordinate becomes `Pos := Int × Int`;
* mutation becomes explicit state passing: a method that mutates `self`
  becomes a function returning the updated value;
* Python code that can raise becomes `Except` / `Option`;
* the numpy boolean grid `Board.empty` (entry `true` = the cell is free)
  becomes a function `Nat → Nat → Bool` indexed through `resolveIdx`,
  which reproduces numpy indexing: a negative index in `[-n, 0)` wraps
  to `i + n`, an index outside `[-n, n)` raises `IndexError` (here:
  `none`);
* `random.choice` / `random.sample` become an explicit chooser function
  passed as a parameter; theorems assume of it only what Python's
  `random` guarantees (a chosen element belongs to the sampled
  collection, and choosing from an empty sequence fails);
* `random.choice(np.argwhere(self.empty))` returns a 2-element numpy
  row, not a tuple, and the truth-value test `if location:` on a
  multi-element ndarray raises `ValueError`; the embedding keeps that
  error path (`PlaceErr.valueErr`) instead of collapsing it into a
  successful placement.
-/

namespace SnakeGame

/-- A grid coordinate, the Python `(int, int)` tuple. -/
abbrev Pos := Int × Int

/-- `Snake` from game.py: health, growth counter, body segments
(head at `body[0]`, tail at `body[-1]`) and the previously vacated
tail cell (`None` when the tail did not move). -/
structure Snake where
  health : Int
  growth : Int
  body : List Pos
  previous_tail : Option Pos
deriving Repr, DecidableEq

/-- `Snake.__init__(location, health=100)`: body is the single segment
`[location]`, growth `0`, no previous tail. -/
def Snake.init (location : Pos) (health : Int) : Snake :=
  { health := health, growth := 0, body := [location], previous_tail := none }

/-- `Snake.head`: `self.body[0]`.  Python raises on an empty body; the
embedding totalises with a default, and theorems that depend on the head
carry a nonempty-body hypothesis. -/
def Snake.head (s : Snake) : Pos :=
  s.body.headD ((0 : Int), (0 : Int))

/-- `Snake.length`: `len(self.body)`. -/
def Snake.length (s : Snake) : Nat :=
  s.body.length

/-- The default value of the `cost` parameter of `Snake.move_to`
(`def move_to(self, location, cost=0)`). -/
def defaultMoveCost : Int := 0

/-- `Snake.move_to(location, cost)` from game.py, lines 48-72.  If
`growth > 0`: clear `previous_tail`, prepend `location`, decrement
`growth`.  Else: record the tail in `previous_tail`, prepend `location`
and drop the tail (`self.body[:-1]`).  In both branches subtract `cost`
from health.  The Python function performs no bounds or collision check,
mutates unconditionally, and returns `None` (despite its `-> bool`
annotation and docstring), so the embedding returns just the updated
snake.  (`self.body[-1]` raises on an empty body; `getLast?` totalises
that corner, which no reachable state hits since a body is never empty.) -/
def Snake.move_to (s : Snake) (location : Pos) (cost : Int) : Snake :=
  if 0 < s.growth then
    { s with
      previous_tail := none
      body := location :: s.body
      growth := s.growth - 1
      health := s.health - cost }
  else
    { s with
      previous_tail := s.body.getLast?
      body := location :: s.body.dropLast
      health := s.health - cost }

/-- `Apple` from game.py: a location plus the health and growth it
grants (Python defaults `health=10`, `growth=1`). -/
structure Apple where
  location : Pos
  health : Int
  growth : Int
deriving Repr, DecidableEq

/-- numpy index resolution on an axis of length `n`: indices in
`[0, n)` are taken as-is, indices in `[-n, 0)` wrap to `i + n`, and
anything else raises `IndexError` (`none`). -/
def resolveIdx (n : Nat) (i : Int) : Option Nat :=
  if 0 ≤ i ∧ i < (n : Int) then some i.toNat
  else if -(n : Int) ≤ i ∧ i < 0 then some (i + (n : Int)).toNat
  else none

/-- `Board` from game.py: dimensions, snakes, the live apples (a Python
set iterated in some order, embedded as a list in iteration order) and
the `empty` grid (`True` = free).  The grid function is only consulted
at in-range indices produced by `resolveIdx`. -/
structure Board where
  width : Nat
  height : Nat
  snakes : List Snake
  apples : List Apple
  empty : Nat → Nat → Bool

/-- Read `self.empty[p]` with numpy semantics: `none` models the
`IndexError` raised when either coordinate falls outside `[-n, n)`. -/
def Board.npGet (b : Board) (p : Pos) : Option Bool :=
  match resolveIdx b.width p.1, resolveIdx b.height p.2 with
  | some i, some j => some (b.empty i j)
  | _, _ => none

/-- Write `self.empty[p] = v` with numpy semantics (`none` = `IndexError`). -/
def Board.npSet (b : Board) (p : Pos) (v : Bool) : Option Board :=
  match resolveIdx b.width p.1, resolveIdx b.height p.2 with
  | some i, some j =>
      some { b with empty := fun a c => if a = i ∧ c = j then v else b.empty a c }
  | _, _ => none

/-- `Board.ended` (game.py lines 154-158):
`sum(snake.health for snake in self.snakes) == 0`. -/
def Board.ended (b : Board) : Bool :=
  (b.snakes.map Snake.health).sum == 0

/-- `Board.empty_spaces`: `np.argwhere(self.empty)`, the free cells in
row-major order. -/
def Board.empty_spaces (b : Board) : List Pos :=
  (List.range b.width).flatMap fun i =>
    (List.range b.height).filterMap fun j =>
      if b.empty i j then some ((i : Int), (j : Int)) else none

/-- The failure modes of `Board.add_apple` / `Board.process_move`:
`occupiedLocation` is the `RuntimeError` for an explicit placement on an
occupied cell, `noFreeCells` is the `RuntimeWarning` *raised* (not
merely logged) when a random placement finds no free cell, `indexErr`
is a numpy `IndexError` from an out-of-range grid access, and
`valueErr` is the numpy ambiguous-truth-value `ValueError` raised by
`if location:` when `location` is the 2-element ndarray row that
`random.choice(np.argwhere(...))` returns. -/
inductive PlaceErr where
  | occupiedLocation
  | noFreeCells
  | indexErr
  | valueErr
deriving Repr, DecidableEq

/-- The explicit-location branch of `Board.add_apple(location, ...)`
(game.py lines 179-184): if `self.empty[location]` then add the apple
and mark the cell occupied, else raise `RuntimeError`. -/
def Board.add_apple_at (b : Board) (location : Pos) (hp gp : Int) :
    Except PlaceErr Board :=
  match b.npGet location with
  | none => .error .indexErr
  | some false => .error .occupiedLocation
  | some true =>
      match b.npSet location false with
      | some b1 => .ok { b1 with apples := b1.apples ++ [⟨location, hp, gp⟩] }
      | none => .error .indexErr

/-- `Board.add_apple(location=None, **kwargs)` (game.py lines 165-192).
With an explicit (tuple) location, `if location:` is truthy and the
explicit branch runs.  With `None` it draws
`random.choice(self.empty_spaces)` — modelled by the `choose`
parameter — and recurses with that location; when no free cell exists
`random.choice` raises `IndexError` and the code raises a
`RuntimeWarning`, which propagates as an exception.  When a free cell
*does* exist, the chosen location is a 2-element numpy row
(`np.argwhere` yields an ndarray), and the recursive call's
`if location:` truthiness test on it raises `ValueError` — so the
random path never actually places an apple. -/
def Board.add_apple (b : Board) (location : Option Pos) (hp gp : Int)
    (choose : List Pos → Option Pos) : Except PlaceErr Board :=
  match location with
  | some l => b.add_apple_at l hp gp
  | none =>
      match choose b.empty_spaces with
      | none => .error .noFreeCells
      | some _ => .error .valueErr

/-- `Board.process_move(snake)` (game.py lines 223-256), applied to the
snake *after* its `move_to` has committed.  Order of the source:
1. if the tail was vacated, mark it free;
2. if the head is out of bounds (negative, or `≥ width`/`height`), set
   health to 0 and return;
3. if the head is on an apple: add the apple's health and growth to the
   snake, remove the apple, mark the head cell *free*
   (`self.empty[snake.head] = True`), then call `self.add_apple()` —
   which, a free cell now existing (the head cell was just freed),
   always raises `ValueError` on the ndarray truthiness test, aborting
   the tick;
4. if the head cell is occupied, set health to 0 and return;
5. otherwise mark the head cell occupied.
`choose` models `random.choice` inside the spawned `add_apple()` call
(Python defaults `health=10`, `growth=1`). -/
def Board.process_move (b : Board) (s : Snake)
    (choose : List Pos → Option Pos) : Except PlaceErr (Board × Snake) :=
  let step1 : Except PlaceErr Board :=
    match s.previous_tail with
    | some pt =>
        match b.npSet pt true with
        | some x => .ok x
        | none => .error .indexErr
    | none => .ok b
  match step1 with
  | .error e => .error e
  | .ok b1 =>
    if s.head.1 < 0 ∨ s.head.2 < 0 then
      .ok (b1, { s with health := 0 })
    else if (b1.width : Int) ≤ s.head.1 ∨ (b1.height : Int) ≤ s.head.2 then
      .ok (b1, { s with health := 0 })
    else
      match b1.apples.find? (fun a => a.location == s.head) with
      | some a =>
          let s1 := { s with health := s.health + a.health, growth := s.growth + a.growth }
          let b2 := { b1 with apples := b1.apples.eraseP (fun x => x.location == a.location) }
          match b2.npSet s.head true with
          | none => .error .indexErr
          | some b3 =>
              match b3.add_apple none 10 1 choose with
              | .ok b4 => .ok (b4, s1)
              | .error e => .error e
      | none =>
          match b1.npGet s.head with
          | none => .error .indexErr
          | some false => .ok (b1, { s with health := 0 })
          | some true =>
              match b1.npSet s.head false with
              | some b2 => .ok (b2, s)
              | none => .error .indexErr

/-- Modelled from the spec: `Board.apply_move` (§4.3) — commit the
snake's move, then resolve its outcome on the board.  In the sources
the sequencing lives in the missing `Game` driver: the snake's
`move_to` runs first and `Board.process_move` then inspects the
already-moved snake (its bounds check reads `snake.head`, its step 1
reads `snake.previous_tail`), so one tick is exactly this composition. -/
def Board.apply_move (b : Board) (s : Snake) (target : Pos) (cost : Int)
    (choose : List Pos → Option Pos) : Except PlaceErr (Board × Snake) :=
  b.process_move (s.move_to target cost) choose

/-- A concrete `empty` grid: free everywhere except the listed occupied
cells (used to build the concrete boards of the scenarios below). -/
def gridOf (occ : List (Nat × Nat)) : Nat → Nat → Bool :=
  fun i j => !(occ.contains (i, j))

/-- The spec's occupancy invariant as an executable check: over every
in-range cell, the cell is marked occupied (`empty = false`) exactly
when it is a body segment of one of the given snakes or a live apple's
location. -/
def occupancyMatches (b : Board) (snakes : List Snake) : Bool :=
  (List.range b.width).all fun i =>
    (List.range b.height).all fun j =>
      (!(b.empty i j)) ==
        (snakes.any (fun s => s.body.contains ((i : Int), (j : Int))) ||
          b.apples.any (fun a => a.location == ((i : Int), (j : Int))))

/-- Whether `p` is inside `[0,width) × [0,height)`. -/
def inBounds (b : Board) (p : Pos) : Prop :=
  0 ≤ p.1 ∧ p.1 < (b.width : Int) ∧ 0 ≤ p.2 ∧ p.2 < (b.height : Int)

instance (b : Board) (p : Pos) : Decidable (inBounds b p) := by
  unfold inBounds; infer_instance

/-- Modelled from the spec: the set-based single-snake `Game` model.
`algorithm.py` and `interactive.py` do `from game import Game`, but no
`Game` class appears in the sources; the spec (§2, §6, §9) describes it
as a set-based single-snake model exposing the snake's head, the set of
apple positions, the set of free cells and the ended flag — exactly the
attributes `random_walk` reads (`game.snake_head`, `game.apples`,
`game.empty_spaces`, `game.ended`). -/
structure Game where
  snake_head : Pos
  apples : Finset Pos
  empty_spaces : Finset Pos
  ended : Bool
deriving DecidableEq

/-- The outcome of one `random_walk` step: either a move target handed
to `game.move_to`, or the no-moves-available signal (the source logs a
warning and sets `game.ended = True` without moving). -/
inductive WalkResult where
  | move (target : Pos)
  | noMoves
deriving Repr, DecidableEq

/-- The four axis-aligned neighbours of the head computed by
`random_walk` (algorithm.py lines 95-100), with no bounds filtering. -/
def directionsOf (p : Pos) : Finset Pos :=
  {(p.1 + 1, p.2), (p.1 - 1, p.2), (p.1, p.2 + 1), (p.1, p.2 - 1)}

/-- `random_walk(game)` (algorithm.py lines 85-111): intersect the four
neighbour cells with the apple set; if non-empty, move to a sampled
member; else intersect with the free cells; if non-empty, move to a
sampled member; else signal that no moves are available.  `pick` models
`random.sample(s, 1)[0]`; theorems assume only that it returns a member
of the (non-empty) set it samples. -/
def random_walk (g : Game) (pick : Finset Pos → Pos) : WalkResult :=
  let directions := directionsOf g.snake_head
  let apple_directions := directions ∩ g.apples
  if apple_directions.Nonempty then
    .move (pick apple_directions)
  else
    let valid_directions := directions ∩ g.empty_spaces
    if valid_directions.Nonempty then
      .move (pick valid_directions)
    else
      .noMoves

/-- Project an `add_apple` outcome to the error it raised, if any
(boards carry a function-valued grid, so results are compared through
projections rather than whole-value equality). -/
def spawnErrOf : Except PlaceErr Board → Option PlaceErr
  | .error e => some e
  | .ok _ => none

/-! Concrete scenario states used by the closed theorems below. -/

/-- 3×3 scenario, snake after `move_to (1,1)`: it sat at `(0,1)` and
moved onto the apple at `(1,1)` (pre-move board `appleBoardS`). -/
def appleSnakeS : Snake := ⟨100, 0, [(0, 1)], none⟩

/-- 3×3 board for the small apple scenario: one apple at `(1,1)`, the
snake at `(0,1)`, grid occupied exactly at those two cells. -/
def appleBoardS : Board := ⟨3, 3, [appleSnakeS], [⟨(1, 1), 10, 1⟩], gridOf [(0, 1), (1, 1)]⟩

/-- The spec's apple-consumption scenario: 10×10 board, one apple at
`(3,4)` with `health=10`, `growth=1`, snake head at `(3,3)`. -/
def appleSnake10 : Snake := ⟨100, 0, [(3, 3)], none⟩

/-- The 10×10 board of the spec's apple-consumption scenario. -/
def appleBoard10 : Board := ⟨10, 10, [appleSnake10], [⟨(3, 4), 10, 1⟩], gridOf [(3, 3), (3, 4)]⟩

/-- A 1×1 board whose only cell is occupied: no free cells remain. -/
def fullBoard1 : Board := ⟨1, 1, [], [], gridOf [(0, 0)]⟩

/-- A single-snake board whose snake has strictly negative health. -/
def negHealthBoard : Board := ⟨3, 3, [⟨-1, 0, [(0, 0)], none⟩], [], gridOf [(0, 0)]⟩

/-- A 2×2 board with every cell free (for the indexing theorems). -/
def freeBoard2 : Board := ⟨2, 2, [], [], gridOf []⟩

/-- Concrete `Game` state for the policy witness: head `(1,1)`, one
adjacent apple at `(2,1)`, one adjacent free cell at `(0,1)`. -/
def walkGameW : Game := ⟨(1, 1), {(2, 1)}, {(0, 1)}, false⟩

/-- Concrete sampler for the policy witness: returns `(2,1)` whenever
the sampled set holds it, else `(0,1)`. -/
def pickW : Finset Pos → Pos :=
  fun s => if (2, 1) ∈ s then (2, 1) else (0, 1)

/-- Concrete snake for the growth-law witness. -/
def wSnake : Snake := ⟨100, 0, [(3, 3)], none⟩

/-- Concrete snake for the out-of-bounds-move witness: sits at `(0,0)`
on the 2×2 board and will be driven out of bounds. -/
def oobSnakeW : Snake := ⟨100, 0, [(0, 0)], none⟩

/-! Helper lemmas shared by several claim theorems. -/

theorem Snake.head_move_to (s : Snake) (t : Pos) (c : Int) :
    (s.move_to t c).head = t := by
  unfold Snake.move_to Snake.head
  split <;> rfl

theorem Snake.body_move_to (s : Snake) (t : Pos) (c : Int) :
    (s.move_to t c).body = t :: (if 0 < s.growth then s.body else s.body.dropLast) := by
  unfold Snake.move_to
  split <;> simp_all

theorem Board.npSet_fields (b : Board) (p : Pos) (v : Bool) (b1 : Board)
    (h : b.npSet p v = some b1) :
    b1.width = b.width ∧ b1.height = b.height ∧
      b1.apples = b.apples ∧ b1.snakes = b.snakes := by
  unfold Board.npSet at h
  rcases hw : resolveIdx b.width p.1 with _ | i <;>
    rcases hh : resolveIdx b.height p.2 with _ | j <;>
      simp [hw, hh] at h <;> simp [← h]

theorem Board.npSet_isSome (b : Board) (p : Pos) (v : Bool)
    (h1 : (resolveIdx b.width p.1).isSome) (h2 : (resolveIdx b.height p.2).isSome) :
    ∃ b1, b.npSet p v = some b1 := by
  unfold Board.npSet
  rcases hw : resolveIdx b.width p.1 with _ | i
  · simp [hw] at h1
  · rcases hh : resolveIdx b.height p.2 with _ | j
    · simp [hh] at h2
    · exact ⟨_, rfl⟩

/-- Claim C4: length/growth law of `Snake.move_to`.  With a positive
growth credit the body grows by one, the credit drops by one and no
tail cell is vacated; with credit zero the length is unchanged and the
old tail cell is vacated into `previous_tail`; a non-negative credit
stays non-negative. -/
theorem move_to_growth_law (s : Snake) (t : Pos) (c : Int) (hne : s.body ≠ []) :
    (0 < s.growth →
      (s.move_to t c).length = s.length + 1 ∧
      (s.move_to t c).growth = s.growth - 1 ∧
      (s.move_to t c).previous_tail = none) ∧
    (s.growth = 0 →
      (s.move_to t c).length = s.length ∧
      s.body.getLast?.isSome ∧
      (s.move_to t c).previous_tail = s.body.getLast?) ∧
    (0 ≤ s.growth → 0 ≤ (s.move_to t c).growth) := by
  have hlen : 0 < s.body.length := List.length_pos.mpr hne
  refine ⟨fun hg => ?_, fun hg => ?_, fun hg => ?_⟩
  · unfold Snake.move_to Snake.length
    rw [if_pos hg]
    exact ⟨by simp, rfl, rfl⟩
  · unfold Snake.move_to Snake.length
    rw [if_neg (by omega)]
    refine ⟨?_, ?_, rfl⟩
    · simp [List.length_dropLast]
      omega
    · simpa [List.getLast?_isSome] using hne
  · unfold Snake.move_to
    split
    · simpa using by omega
    · simpa using hg

/-- Witness for C4 at a concrete snake of length 1 with zero growth. -/
theorem move_to_growth_law_witness :
    (0 < wSnake.growth →
      (wSnake.move_to (3, 4) 1).length = wSnake.length + 1 ∧
      (wSnake.move_to (3, 4) 1).growth = wSnake.growth - 1 ∧
      (wSnake.move_to (3, 4) 1).previous_tail = none) ∧
    (wSnake.growth = 0 →
      (wSnake.move_to (3, 4) 1).length = wSnake.length ∧
      wSnake.body.getLast?.isSome ∧
      (wSnake.move_to (3, 4) 1).previous_tail = wSnake.body.getLast?) ∧
    (0 ≤ wSnake.growth → 0 ≤ (wSnake.move_to (3, 4) 1).growth) :=
  move_to_growth_law wSnake (3, 4) 1 (by decide)

/-- Claim C5 (failing evaluation): `Snake.move_to` reports nothing.
Moving the head onto `(4,5)` — a non-tail body segment, which the claim
and the function's own docstring say is a self-collision to be
reported — simply commits: the function has no outcome value at all
and the resulting body holds `(4,5)` twice. -/
theorem move_to_commits_self_collision :
    Snake.move_to ⟨100, 0, [(5, 5), (4, 5), (3, 5)], none⟩ (4, 5) defaultMoveCost =
      ⟨100, 0, [(4, 5), (5, 5), (4, 5)], some (3, 5)⟩ := by decide

/-- Claim C8 (counterexample): the default per-move cost in the source
is 0, not 1 — a move made with the default cost leaves health at 100
where the claim requires 99. -/
theorem move_to_default_cost_cex :
    (Snake.move_to ⟨100, 0, [(3, 3)], none⟩ (3, 4) defaultMoveCost).health = 100 ∧
    defaultMoveCost ≠ 1 := by decide

/-- Claim C8 (amended): every move decrements health by exactly the
cost the caller passes; the source's default for that parameter is 0,
so a move is free unless a cost is passed explicitly. -/
theorem move_to_cost_semantics (s : Snake) (t : Pos) (c : Int) :
    (s.move_to t c).health = s.health - c ∧ defaultMoveCost = 0 := by
  unfold Snake.move_to defaultMoveCost
  split <;> exact ⟨rfl, rfl⟩

/-- Claim C1 (failing evaluation): the occupancy invariant holds in
the pre-tick state of the small apple scenario, yet processing the
apple-eating move never re-establishes it — the apple-consumption
branch of `process_move` marks the new head cell free and then calls
`add_apple()`, which raises `ValueError` (a free cell exists, so the
random path's ndarray truthiness test fires), so the tick aborts and
no Running tick boundary satisfying the claimed equality is ever
reached. -/
theorem occupancy_invariant_broken_by_apple_branch :
    occupancyMatches appleBoardS [appleSnakeS] = true ∧
    appleBoardS.apply_move appleSnakeS (1, 1) 1 List.head? = .error .valueErr :=
  ⟨by decide, rfl⟩

/-- Claim C2 (evaluation at the spec's scenario): moving from `(3,3)`
onto the apple at `(3,4)` at cost 1 does commit the snake move with
length unchanged and health `100 - 1 = 99`, but processing the move
then aborts with `ValueError`: the branch frees the head cell and calls
`add_apple()`, whose random path raises on the ndarray truthiness test
because free cells remain — so no replacement apple is placed, the head
cell is never marked occupied, and the claimed completed post-tick
state does not exist. -/
theorem apple_consumption_tick_eval :
    (appleSnake10.move_to (3, 4) 1).body = [(3, 4)] ∧
    (appleSnake10.move_to (3, 4) 1).length = appleSnake10.length ∧
    (appleSnake10.move_to (3, 4) 1).health = 99 ∧
    appleBoard10.apply_move appleSnake10 (3, 4) 1 List.head? = .error .valueErr :=
  ⟨by decide, by decide, by decide, rfl⟩

/-- Claim C6 (failing evaluation): on a board with no free cell, a
random apple placement does not return gracefully — `add_apple` raises
(the source's `raise RuntimeWarning`, an exception that propagates),
modelled here as the `noFreeCells` error. -/
theorem add_apple_no_free_cells_raises :
    fullBoard1.empty_spaces = [] ∧
    spawnErrOf (fullBoard1.add_apple none 10 1 List.head?) = some .noFreeCells := by decide

/-- Claim C7 (counterexample): a single-snake board whose snake has
health `-1 ≤ 0` is *not* reported ended — `Board.ended` compares the
total health to zero instead of testing `≤ 0`. -/
theorem ended_ignores_negative_health_cex :
    negHealthBoard.ended = false ∧ ∀ s ∈ negHealthBoard.snakes, s.health ≤ 0 := by decide

/-- Claim C7 (amended): `Board.ended` holds exactly when the snakes'
total health equals zero; for a single-snake board, exactly when that
snake's health is exactly 0. -/
theorem ended_iff_zero_health_single (b : Board) (s : Snake) (h : b.snakes = [s]) :
    b.ended = true ↔ s.health = 0 := by
  simp [Board.ended, h]

/-- Witness for the amended C7 at a concrete single-snake board. -/
theorem ended_iff_zero_health_single_witness :
    negHealthBoard.ended = true ↔ (Snake.mk (-1) 0 [(0, 0)] none).health = 0 :=
  ended_iff_zero_health_single negHealthBoard ⟨-1, 0, [(0, 0)], none⟩ rfl

theorem resolveIdx_eq_none_iff (n : Nat) (i : Int) :
    resolveIdx n i = none ↔ ¬(-(n : Int) ≤ i ∧ i < (n : Int)) := by
  unfold resolveIdx
  by_cases h1 : 0 ≤ i ∧ i < (n : Int)
  · rw [if_pos h1]
    simp
    omega
  · rw [if_neg h1]
    by_cases h2 : -(n : Int) ≤ i ∧ i < 0
    · rw [if_pos h2]
      simp
      omega
    · rw [if_neg h2]
      simp
      omega

theorem resolveIdx_wrap (n : Nat) (i : Int) (h1 : -(n : Int) ≤ i) (h2 : i < 0) :
    resolveIdx n i = resolveIdx n (i + n) := by
  unfold resolveIdx
  rw [if_neg (by omega), if_pos ⟨h1, h2⟩, if_pos (⟨by omega, by omega⟩ : 0 ≤ i + (n : Int) ∧ i + (n : Int) < (n : Int))]

theorem npGet_eq_none_iff (b : Board) (x y : Int) :
    b.npGet (x, y) = none ↔
      resolveIdx b.width x = none ∨ resolveIdx b.height y = none := by
  unfold Board.npGet
  rcases hw : resolveIdx b.width x with _ | i <;>
    rcases hh : resolveIdx b.height y with _ | j <;> simp

/-- Claim C9 (counterexample): on the all-free 2×2 board, the query at
`(2,0)` raises `IndexError` (`none`) instead of reporting the cell
occupied, and the query at `(-1,0)` reports the cell *free* — numpy
wraps negative indices. -/
theorem npGet_oob_cex :
    freeBoard2.npGet (2, 0) = none ∧ freeBoard2.npGet (-1, 0) = some true := by decide

/-- Claim C9 (amended): occupancy queries follow numpy indexing — a
query raises `IndexError` exactly when a coordinate falls outside
`[-n, n)` for its axis length `n`, and a negative in-range coordinate
wraps around to the cell at `i + n`; callers must therefore bounds-check
separately (as `process_move` does before its occupancy query). -/
theorem npGet_numpy_semantics (b : Board) (x y : Int) :
    (b.npGet (x, y) = none ↔
      ¬(-(b.width : Int) ≤ x ∧ x < (b.width : Int) ∧
        -(b.height : Int) ≤ y ∧ y < (b.height : Int))) ∧
    (-(b.width : Int) ≤ x → x < 0 → b.npGet (x, y) = b.npGet (x + (b.width : Int), y)) ∧
    (-(b.height : Int) ≤ y → y < 0 → b.npGet (x, y) = b.npGet (x, y + (b.height : Int))) := by
  refine ⟨?_, fun h1 h2 => ?_, fun h1 h2 => ?_⟩
  · rw [npGet_eq_none_iff, resolveIdx_eq_none_iff, resolveIdx_eq_none_iff]
    omega
  · unfold Board.npGet
    rw [resolveIdx_wrap b.width x h1 h2]
  · unfold Board.npGet
    rw [resolveIdx_wrap b.height y h1 h2]

/-- Witness for the amended C9: on the 2×2 board, `(-1,0)` wraps. -/
theorem npGet_numpy_semantics_witness :
    freeBoard2.npGet (-1, 0) = freeBoard2.npGet (-1 + (freeBoard2.width : Int), 0) :=
  (npGet_numpy_semantics freeBoard2 (-1) 0).2.1 (by decide) (by decide)

/-- Claim C3: the heuristic policy. If the four neighbour cells of the
head meet the apple set, the move target is a sampled member of that
intersection; otherwise, if they meet the free-cell set, the target is
a sampled member of that intersection; otherwise the policy signals
`noMoves` without producing any move.  `pick` is assumed to return a
member of the non-empty set it samples, as `random.sample` does. -/
theorem random_walk_policy (g : Game) (pick : Finset Pos → Pos)
    (hA : (directionsOf g.snake_head ∩ g.apples).Nonempty →
      pick (directionsOf g.snake_head ∩ g.apples) ∈ directionsOf g.snake_head ∩ g.apples)
    (hF : (directionsOf g.snake_head ∩ g.empty_spaces).Nonempty →
      pick (directionsOf g.snake_head ∩ g.empty_spaces) ∈
        directionsOf g.snake_head ∩ g.empty_spaces) :
    ((directionsOf g.snake_head ∩ g.apples).Nonempty →
      ∃ t ∈ directionsOf g.snake_head ∩ g.apples, random_walk g pick = .move t) ∧
    (¬(directionsOf g.snake_head ∩ g.apples).Nonempty →
      (directionsOf g.snake_head ∩ g.empty_spaces).Nonempty →
      ∃ t ∈ directionsOf g.snake_head ∩ g.empty_spaces, random_walk g pick = .move t) ∧
    (¬(directionsOf g.snake_head ∩ g.apples).Nonempty →
      ¬(directionsOf g.snake_head ∩ g.empty_spaces).Nonempty →
      random_walk g pick = .noMoves) := by
  refine ⟨fun h => ?_, fun h1 h2 => ?_, fun h1 h2 => ?_⟩
  · refine ⟨pick (directionsOf g.snake_head ∩ g.apples), hA h, ?_⟩
    simp only [random_walk]
    rw [if_pos h]
  · refine ⟨pick (directionsOf g.snake_head ∩ g.empty_spaces), hF h2, ?_⟩
    simp only [random_walk]
    rw [if_neg h1, if_pos h2]
  · simp only [random_walk]
    rw [if_neg h1, if_neg h2]

/-- Witness for C3 at a concrete game state and sampler. -/
theorem random_walk_policy_witness :
    ((directionsOf walkGameW.snake_head ∩ walkGameW.apples).Nonempty →
      ∃ t ∈ directionsOf walkGameW.snake_head ∩ walkGameW.apples,
        random_walk walkGameW pickW = .move t) ∧
    (¬(directionsOf walkGameW.snake_head ∩ walkGameW.apples).Nonempty →
      (directionsOf walkGameW.snake_head ∩ walkGameW.empty_spaces).Nonempty →
      ∃ t ∈ directionsOf walkGameW.snake_head ∩ walkGameW.empty_spaces,
        random_walk walkGameW pickW = .move t) ∧
    (¬(directionsOf walkGameW.snake_head ∩ walkGameW.apples).Nonempty →
      ¬(directionsOf walkGameW.snake_head ∩ walkGameW.empty_spaces).Nonempty →
      random_walk walkGameW pickW = .noMoves) :=
  random_walk_policy walkGameW pickW (by decide) (by decide)

theorem Snake.previous_tail_move_to_of_growth (s : Snake) (t : Pos) (c : Int)
    (h : 0 < s.growth) : (s.move_to t c).previous_tail = none := by
  unfold Snake.move_to
  rw [if_pos h]

theorem process_move_terminal_oob (b : Board) (m : Snake) (choose : List Pos → Option Pos)
    (hoob : m.head.1 < 0 ∨ m.head.2 < 0 ∨
      (b.width : Int) ≤ m.head.1 ∨ (b.height : Int) ≤ m.head.2)
    (htail : ∀ pt ∈ m.previous_tail,
      (resolveIdx b.width pt.1).isSome ∧ (resolveIdx b.height pt.2).isSome) :
    ∃ b1, b.process_move m choose = .ok (b1, { m with health := 0 }) := by
  rcases hpt : m.previous_tail with _ | pt
  · simp only [Board.process_move, hpt]
    by_cases h1 : m.head.1 < 0 ∨ m.head.2 < 0
    · rw [if_pos h1]
      exact ⟨b, rfl⟩
    · rw [if_neg h1, if_pos (by omega)]
      exact ⟨b, rfl⟩
  · obtain ⟨h1s, h2s⟩ := htail pt (by simp [hpt])
    obtain ⟨c1, hc1⟩ := Board.npSet_isSome b pt true h1s h2s
    obtain ⟨hw, hh, _, _⟩ := Board.npSet_fields b pt true c1 hc1
    simp only [Board.process_move, hpt, hc1]
    by_cases h1 : m.head.1 < 0 ∨ m.head.2 < 0
    · rw [if_pos h1]
      exact ⟨c1, rfl⟩
    · rw [if_neg h1, if_pos (by rw [hw, hh]; omega)]
      exact ⟨c1, rfl⟩

theorem process_move_terminal_collision (b : Board) (m : Snake)
    (choose : List Pos → Option Pos)
    (hpt : m.previous_tail = none)
    (hin : 0 ≤ m.head.1 ∧ m.head.1 < (b.width : Int) ∧
      0 ≤ m.head.2 ∧ m.head.2 < (b.height : Int))
    (hap : b.apples.find? (fun a => a.location == m.head) = none)
    (hocc : b.npGet m.head = some false) :
    b.process_move m choose = .ok (b, { m with health := 0 }) := by
  simp only [Board.process_move, hpt]
  rw [if_neg (by omega), if_neg (by omega), hap, hocc]

/-- Claim C10: `Snake.move_to` is total and commits unconditionally —
for any target whatsoever the moved snake's head is the target and the
target sits in the body — while bounds and collision are only enforced
afterwards by `Board.process_move`: an out-of-bounds target still
yields a committed snake, whose health the board then zeroes with the
illegal head left in the body, and likewise a move onto an occupied
cell commits and is only then ruled a terminal collision. -/
theorem move_to_unchecked_board_checks_after
    (b : Board) (s : Snake) (t : Pos) (c : Int) (choose : List Pos → Option Pos)
    (htail : ∀ pt ∈ (s.move_to t c).previous_tail,
      (resolveIdx b.width pt.1).isSome ∧ (resolveIdx b.height pt.2).isSome) :
    (s.move_to t c).head = t ∧
    t ∈ (s.move_to t c).body ∧
    (¬ inBounds b t →
      ∃ b1, b.apply_move s t c choose = .ok (b1, { s.move_to t c with health := 0 })) ∧
    (0 < s.growth → inBounds b t →
      b.apples.find? (fun a => a.location == t) = none →
      b.npGet t = some false →
      b.apply_move s t c choose = .ok (b, { s.move_to t c with health := 0 })) := by
  have hhd := Snake.head_move_to s t c
  refine ⟨hhd, ?_, fun hn => ?_, fun hg hb hap hocc => ?_⟩
  · rw [Snake.body_move_to]
    exact List.mem_cons_self t _
  · unfold Board.apply_move
    refine process_move_terminal_oob b (s.move_to t c) choose ?_ htail
    rw [hhd]
    unfold inBounds at hn
    omega
  · unfold Board.apply_move
    refine process_move_terminal_collision b (s.move_to t c) choose
      (Snake.previous_tail_move_to_of_growth s t c hg) ?_ ?_ ?_
    · rw [hhd]
      unfold inBounds at hb
      omega
    · rw [hhd]
      exact hap
    · rw [hhd]
      exact hocc

/-- Witness for C10: the length-1 snake at `(0,0)` on the free 2×2
board, driven to the out-of-bounds target `(5,0)`. -/
theorem move_to_unchecked_board_checks_after_witness :
    (oobSnakeW.move_to (5, 0) 1).head = (5, 0) ∧
    (5, 0) ∈ (oobSnakeW.move_to (5, 0) 1).body ∧
    (¬ inBounds freeBoard2 (5, 0) →
      ∃ b1, freeBoard2.apply_move oobSnakeW (5, 0) 1 List.head? =
        .ok (b1, { oobSnakeW.move_to (5, 0) 1 with health := 0 })) ∧
    (0 < oobSnakeW.growth → inBounds freeBoard2 (5, 0) →
      freeBoard2.apples.find? (fun a => a.location == (5, 0)) = none →
      freeBoard2.npGet (5, 0) = some false →
      freeBoard2.apply_move oobSnakeW (5, 0) 1 List.head? =
        .ok (freeBoard2, { oobSnakeW.move_to (5, 0) 1 with health := 0 })) :=
  move_to_unchecked_board_checks_after freeBoard2 oobSnakeW (5, 0) 1 List.head? (by decide)

end SnakeGame
